import Mathlib

/-!
Verification development for `src/dmarc_report_parser.py` (dmarc-checker).

The Python source is shallowly embedded: pure helpers become Lean
functions, the XML document (after `xml.etree.ElementTree` parsing) is a
tree type, library calls (`zipfile`, `gzip`, `ET.fromstring`) are modelled
by their documented input/output behaviour, and an uncaught Python
exception is modelled by `Option`/`Except` failure values.
-/

namespace DmarcChecker

/-! ### Model of Python `int(str)` (used at lines 29, 107, 117, 201, 202) -/

/-- Characters stripped by Python `int()` around a numeric literal
(ASCII whitespace; full Unicode whitespace is out of scope). -/
def isPySpace (c : Char) : Bool :=
  c = ' ' || c = '\t' || c = '\n' || c = '\r' || c = '\x0b' || c = '\x0c'

def digitVal (c : Char) : Nat := c.toNat - 48

/-- Digits after the first one: decimal digits with single underscores
allowed between digits, as Python `int()` accepts. -/
def pyIntDigits : Nat → List Char → Option Nat
  | acc, [] => some acc
  | acc, '_' :: c :: cs =>
      if c.isDigit then pyIntDigits (acc * 10 + digitVal c) cs else none
  | acc, c :: cs =>
      if c.isDigit then pyIntDigits (acc * 10 + digitVal c) cs else none

/-- An unsigned decimal literal body: at least one digit. -/
def pyIntCore : List Char → Option Nat
  | [] => none
  | c :: cs => if c.isDigit then pyIntDigits (digitVal c) cs else none

def pyStrip (l : List Char) : List Char :=
  ((l.dropWhile isPySpace).reverse.dropWhile isPySpace).reverse

/-- Model of Python `int(s)` on a string: strip whitespace, optional
sign, decimal digits; `none` models the `ValueError` raised on anything
else (in particular on the empty string). -/
def pyInt (s : String) : Option Int :=
  match pyStrip s.data with
  | '+' :: rest => (pyIntCore rest).map (fun n => (n : Int))
  | '-' :: rest => (pyIntCore rest).map (fun n => -(n : Int))
  | rest => (pyIntCore rest).map (fun n => (n : Int))

/-! ### `parse_unix_timestamp` (source lines 27-33) -/

def pad2 (n : Nat) : String := if n < 10 then "0" ++ toString n else toString n

def pad4 (n : Nat) : String :=
  if n < 10 then "000" ++ toString n
  else if n < 100 then "00" ++ toString n
  else if n < 1000 then "0" ++ toString n
  else toString n

/-- Days since 1970-01-01 to (year, month, day) in the proleptic
Gregorian calendar (the computation `datetime.fromtimestamp` performs). -/
def civilFromDays (z : Int) : Nat × Nat × Nat :=
  let era : Int := Int.fdiv (z + 719468) 146097
  let doe : Nat := (z + 719468 - era * 146097).toNat
  let yoe : Nat := (doe - doe / 1460 + doe / 36524 - doe / 146096) / 365
  let doy : Nat := doe - (365 * yoe + yoe / 4 - yoe / 100)
  let mp : Nat := (5 * doy + 2) / 153
  let d : Nat := doy - (153 * mp + 2) / 5 + 1
  let m : Nat := if mp < 10 then mp + 3 else mp - 9
  let y : Int := era * 400 + (yoe : Int) + (if m ≤ 2 then 1 else 0)
  (y.toNat, m, d)

/-- `datetime.fromtimestamp(n, tz=timezone.utc).strftime("%Y-%m-%d %H:%M:%S UTC")`
for an in-range epoch value `n`. -/
def formatUtc (n : Int) : String :=
  let days : Int := Int.fdiv n 86400
  let sod : Nat := (n - days * 86400).toNat
  let ymd := civilFromDays days
  pad4 ymd.1 ++ "-" ++ pad2 ymd.2.1 ++ "-" ++ pad2 ymd.2.2 ++ " " ++
    pad2 (sod / 3600) ++ ":" ++ pad2 (sod % 3600 / 60) ++ ":" ++
    pad2 (sod % 60) ++ " UTC"

/-- Smallest epoch second `datetime.fromtimestamp` accepts
(0001-01-01 00:00:00 UTC, i.e. `datetime.min`). -/
def tsMin : Int := -62135596800

/-- Largest epoch second `datetime.fromtimestamp` accepts
(9999-12-31 23:59:59 UTC, i.e. `datetime.max`). -/
def tsMax : Int := 253402300799

/-- Source lines 27-33: convert `ts` via `int` + `datetime.fromtimestamp`;
any exception (non-numeric text, out-of-range value) is caught and the
raw text is returned (`str(ts)` is `ts` itself for a string input). -/
def parse_unix_timestamp (ts : String) : String :=
  match pyInt ts with
  | none => ts
  | some n => if tsMin ≤ n ∧ n ≤ tsMax then formatUtc n else ts

/-! ### Model of the `xml.etree.ElementTree` document

An element has a tag (for a namespaced document the tag is
`"{uri}name"`, exactly as `ElementTree` presents it), optional text, and
a list of children.  `XElem`/`XForest` are a mutual pair so that all
functions are structural and computable. -/

mutual
inductive XElem : Type where
  | mk (tag : String) (text : Option String) (children : XForest)
  deriving DecidableEq
inductive XForest : Type where
  | nil : XForest
  | cons (head : XElem) (tail : XForest) : XForest
  deriving DecidableEq
end

def XElem.tag : XElem → String
  | .mk t _ _ => t

def XElem.text : XElem → Option String
  | .mk _ tx _ => tx

def XElem.children : XElem → XForest
  | .mk _ _ cs => cs

def XForest.toList : XForest → List XElem
  | .nil => []
  | .cons c cs => c :: XForest.toList cs

def XForest.ofList : List XElem → XForest
  | [] => .nil
  | c :: cs => .cons c (XForest.ofList cs)

/-- Convenience constructor from a `List` of children. -/
def mkE (t : String) (tx : Option String) (cs : List XElem) : XElem :=
  .mk t tx (XForest.ofList cs)

/-! Proper descendants of an element in document (preorder) order —
the sequence `Element.iter` yields, minus the element itself.  This is
how `ElementTree` evaluates the leading `.//` of a path. -/

mutual
def descElem : XElem → List XElem
  | .mk _ _ cs => descForest cs
def descForest : XForest → List XElem
  | .nil => []
  | .cons c cs => c :: (descElem c ++ descForest cs)
end

/-- Children of `e` whose tag is `t`: one `/tag` child step of an
`ElementTree` path. -/
def childMatch (t : String) (e : XElem) : List XElem :=
  (XForest.toList e.children).filter (fun c => decide (c.tag = t))

/-- The child steps after the leading `.//first` step of a path
`.//first/t1/.../tn`, applied to one element matched by the first step. -/
def childChain : List String → XElem → List XElem
  | [], e => [e]
  | t :: ts, e => (childMatch t e).flatMap (childChain ts)

/-- `e.findall(".//" + t)`: all proper descendants tagged `t`, in
document order. -/
def findAllDesc (e : XElem) (t : String) : List XElem :=
  (descElem e).filter (fun c => decide (c.tag = t))

/-- All elements matched by the path `.//t/ts₁/…/tsₙ` relative to `e`,
in document order. -/
def findPath (e : XElem) (t : String) (ts : List String) : List XElem :=
  (findAllDesc e t).flatMap (childChain ts)

/-- `e.find(".//" + t)`: first match or `None`. -/
def findFirst (e : XElem) (t : String) : Option XElem :=
  (findAllDesc e t).head?

/-- `e.findtext(".//t/ts…", default="")`: text of the first match (an
element with no text reads as `""`), or the default `""` when nothing
matches. -/
def findtext (e : XElem) (t : String) (ts : List String) : String :=
  match findPath e t ts with
  | [] => ""
  | x :: _ => x.text.getD ""

/-! ### Namespace detection (source lines 41-43) -/

/-- Model of `s.startswith("{")`. -/
def startsWithBrace (s : String) : Bool :=
  match s.data with
  | '{' :: _ => true
  | _ => false

/-- Model of `s.split("}")[0]`: the longest initial segment before the
first `"}"`. -/
def pySplitHead (s : String) (c : Char) : String :=
  ⟨s.data.takeWhile (fun a => decide (a ≠ c))⟩

/-- Source lines 41-43: `ns = root.tag.split("}")[0] + "}"` when the root
tag is namespace-qualified, else `""`. -/
def nsOf (root : XElem) : String :=
  if startsWithBrace root.tag then pySplitHead root.tag '}' ++ "\x7d" else ""

/-! ### Record extraction (source lines 54-104) -/

structure SpfDetail where
  domain : String
  result : String
  deriving DecidableEq

structure DkimDetail where
  domain : String
  result : String
  selector : String
  deriving DecidableEq

structure RecordData where
  source_ip : String
  count : String
  disposition : String
  dkim : String
  spf : String
  spf_details : Option SpfDetail
  dkim_details : List DkimDetail
  deriving DecidableEq

/-- Source lines 56-104: the fields pulled out of one `record` element.
`spf_details` is `none` exactly when the Python dict stays `{}` (no
`auth_results` element, or no `spf` under it). -/
def extractRecord (ns : String) (record : XElem) : RecordData :=
  { source_ip := findtext record (ns ++ "row") [ns ++ "source_ip"]
    count := findtext record (ns ++ "row") [ns ++ "count"]
    disposition :=
      findtext record (ns ++ "row") [ns ++ "policy_evaluated", ns ++ "disposition"]
    dkim := findtext record (ns ++ "row") [ns ++ "policy_evaluated", ns ++ "dkim"]
    spf := findtext record (ns ++ "row") [ns ++ "policy_evaluated", ns ++ "spf"]
    spf_details :=
      match findFirst record (ns ++ "auth_results") with
      | none => none
      | some ar =>
        match findFirst ar (ns ++ "spf") with
        | none => none
        | some spfAuth =>
          some { domain := findtext spfAuth (ns ++ "domain") []
                 result := findtext spfAuth (ns ++ "result") [] }
    dkim_details :=
      match findFirst record (ns ++ "auth_results") with
      | none => []
      | some ar =>
        (findAllDesc ar (ns ++ "dkim")).map (fun d =>
          { domain := findtext d (ns ++ "domain") []
            result := findtext d (ns ++ "result") []
            selector := findtext d (ns ++ "selector") [] }) }

/-- The structured data `parse_dmarc_xml` extracts before aggregation
(source lines 41-104): metadata, policy and the record list.
`date_begin`/`date_end` stand for the source's `begin`/`end` locals. -/
structure ReportData where
  org_name : String
  date_begin : String
  date_end : String
  domain : String
  p : String
  sp : String
  pct : String
  records : List RecordData
  deriving DecidableEq

/-- Source lines 41-104 of `parse_dmarc_xml`: namespace detection plus
every `findtext`/`findall` lookup. -/
def extractReportData (root : XElem) : ReportData :=
  let ns := nsOf root
  { org_name := findtext root (ns ++ "org_name") []
    date_begin := findtext root (ns ++ "date_range") [ns ++ "begin"]
    date_end := findtext root (ns ++ "date_range") [ns ++ "end"]
    domain := findtext root (ns ++ "policy_published") [ns ++ "domain"]
    p := findtext root (ns ++ "policy_published") [ns ++ "p"]
    sp := findtext root (ns ++ "policy_published") [ns ++ "sp"]
    pct := findtext root (ns ++ "policy_published") [ns ++ "pct"]
    records := (findAllDesc root (ns ++ "record")).map (extractRecord ns) }

/-! ### Classifier (source lines 112-125) -/

inductive Status : Type where
  | success
  | warning
  | failure
  deriving DecidableEq

/-- Source lines 112-125 as a function of one record: the
`if/elif/else` chain of the summary loop. -/
def classify (r : RecordData) : Status :=
  if r.spf = "pass" ∧ r.dkim = "pass" ∧
      (r.disposition = "none" ∨ r.disposition = "pass") then .success
  else if (r.spf = "pass" ∨ r.dkim = "pass") ∧
      (r.disposition = "none" ∨ r.disposition = "pass" ∨
        r.disposition = "quarantine") then .warning
  else .failure

/-! ### Aggregation (source lines 107, 117, 201-202) -/

/-- `sum(int(rec["count"]) for rec in rs)`: `none` models the
`ValueError` that `int` raises on an unparsable count, which the sum
does not catch. -/
def sumCounts (rs : List RecordData) : Option Int :=
  rs.foldr
    (fun r acc =>
      match pyInt r.count, acc with
      | some n, some a => some (n + a)
      | _, _ => none)
    (some 0)

/-- The crash-free total: each count contributing its parsed value. -/
def sumCountsD (rs : List RecordData) : Int :=
  rs.foldr (fun r a => (pyInt r.count).getD 0 + a) 0

/-! ### Formatter (source lines 127-220) -/

/-- Model of Python `str.upper()` (ASCII part). -/
def pyUpper (s : String) : String := ⟨s.data.map Char.toUpper⟩

/-- `"1 email" if rec["count"] == "1" else f"{rec['count']} emails"`
(source lines 143, 180). -/
def countStr (r : RecordData) : String :=
  if r.count = "1" then "1 email" else r.count ++ " emails"

/-- One failure entry of the digest (source lines 142-170). -/
def formatFailureEntry (i : Nat) (r : RecordData) : List String :=
  ["\n❌ FAILURE #" ++ toString (i + 1) ++ ": " ++ countStr r ++
      " from IP " ++ r.source_ip,
   "   Disposition: " ++ pyUpper r.disposition,
   "   Policy Results: SPF=" ++ pyUpper r.spf ++ ", DKIM=" ++ pyUpper r.dkim] ++
  (match r.spf_details with
   | none => []
   | some sd =>
     ["   SPF Check: domain=" ++ sd.domain ++ ", result=" ++ sd.result]) ++
  ((r.dkim_details.enum).map (fun p =>
    "   DKIM Check #" ++ toString (p.1 + 1) ++ ": domain=" ++ p.2.domain ++
      ", result=" ++ p.2.result ++
      (if p.2.selector = "" then "" else ", selector=" ++ p.2.selector))) ++
  ["   → ACTION: Verify email authentication for this IP address"]

/-- One warning entry of the digest (source lines 179-196). -/
def formatWarningEntry (i : Nat) (r : RecordData) : List String :=
  ["\n⚠️ WARNING #" ++ toString (i + 1) ++ ": " ++ countStr r ++
      " from IP " ++ r.source_ip,
   "   Policy Results: SPF=" ++ pyUpper r.spf ++ ", DKIM=" ++ pyUpper r.dkim] ++
  (match r.spf_details with
   | none => []
   | some sd =>
     ["   SPF: domain=" ++ sd.domain ++ ", result=" ++ sd.result]) ++
  (r.dkim_details.map (fun d =>
    "   DKIM: domain=" ++ d.domain ++ ", result=" ++ d.result))

/-- `f"🚨 {failed_count} FAILED"` (source line 206). -/
def failedPart (n : Int) : String := "🚨 " ++ toString n ++ " FAILED"

/-- `f"⚠️ {warning_count} WARNINGS"` (source line 208). -/
def warningPart (n : Int) : String := "⚠️ " ++ toString n ++ " WARNINGS"

/-- `f"✅ {success_count} SUCCESS"` (source line 210). -/
def successPart (n : Int) : String := "✅ " ++ toString n ++ " SUCCESS"

/-- `summary_parts` (source lines 204-210). -/
def summaryParts (fc wc sc : Int) : List String :=
  (if 0 < fc then [failedPart fc] else []) ++
  (if 0 < wc then [warningPart wc] else []) ++
  (if 0 < sc then [successPart sc] else [])

/-- The summary line appended at source lines 212-214. -/
def summaryLine (fc wc sc total : Int) : String :=
  "SUMMARY: " ++ String.intercalate " | " (summaryParts fc wc sc) ++
    " | Total: " ++ toString total ++ " messages"

/-- The single all-clear result of source line 220. -/
def allClearLine (domain org_name : String) (total : Int) : String :=
  "✅ " ++ domain ++ " (" ++ org_name ++ "): All " ++ toString total ++
    " messages passed authentication"

/-- Source lines 106-220: aggregation, digest construction and the final
choice between the digest and the all-clear line.  A `none` result
models the uncaught `ValueError` of `int` on an unparsable count (the
code raises at line 107 before anything is returned; the later sums at
lines 117, 201, 202 can then never fail, so the extra `match` arms are
unreachable but keep the model total).  Python's
`if failed_records or warning_records` tests list non-emptiness. -/
def renderReport (rd : ReportData) : Option String :=
  let records := rd.records
  match sumCounts records with
  | none => none
  | some total_messages =>
    let failed_records := records.filter (fun r => decide (classify r = .failure))
    let warning_records := records.filter (fun r => decide (classify r = .warning))
    let success_records := records.filter (fun r => decide (classify r = .success))
    match sumCounts success_records, sumCounts failed_records,
        sumCounts warning_records with
    | some success_count, some failed_count, some warning_count =>
      let header : List String :=
        ["Report: " ++ rd.domain ++ " | From: " ++ rd.org_name ++
           " | Period: " ++ parse_unix_timestamp rd.date_begin ++ " to " ++
           parse_unix_timestamp rd.date_end,
         "Policy: p=" ++ rd.p ++ ", sp=" ++ rd.sp ++ ", pct=" ++ rd.pct,
         ""]
      let failBlock : List String :=
        if failed_records.isEmpty then []
        else
          ["🚨 FAILURES - INVESTIGATE IMMEDIATELY 🚨",
           String.mk (List.replicate 60 '=')] ++
          (failed_records.enum).flatMap (fun p => formatFailureEntry p.1 p.2) ++
          [""]
      let warnBlock : List String :=
        if warning_records.isEmpty then []
        else
          ["⚠️ WARNINGS - PARTIAL AUTHENTICATION",
           String.mk (List.replicate 40 '-')] ++
          (warning_records.enum).flatMap (fun p => formatWarningEntry p.1 p.2) ++
          [""]
      let output_lines : List String :=
        header ++ failBlock ++ warnBlock ++
        [summaryLine failed_count warning_count success_count total_messages]
      if failed_records.isEmpty ∧ warning_records.isEmpty then
        some (allClearLine rd.domain rd.org_name total_messages)
      else
        some (String.intercalate "\n" output_lines)
    | _, _, _ => none

/-- `parse_dmarc_xml` on an already-parsed document (source lines
41-220): extraction followed by aggregation and formatting.  `none`
models an uncaught exception. -/
def parse_dmarc_xml (root : XElem) : Option String :=
  renderReport (extractReportData root)

/-- The parse boundary (source line 37): `ET.fromstring` either yields a
document or raises `ParseError`; `parse_dmarc_xml` wraps the call in no
`try`/`except`, so an error outcome propagates to the caller unchanged.
(The `root is None` check at lines 39-40 is unreachable: `fromstring`
never returns `None`.) -/
def parse_dmarc_from_bytes (r : Except String XElem) : Except String (Option String) :=
  match r with
  | .error e => .error e
  | .ok root => .ok (parse_dmarc_xml root)

/-! ### Archive extraction (source lines 9-24)

Byte buffers are opaque payloads; a zip archive is its entry list
(name, payload), a gzip file its single decompressed payload. -/

abbrev Bytes : Type := List Nat

/-- Model of `name.lower()` (ASCII part). -/
def pyLower (s : String) : String := ⟨s.data.map Char.toLower⟩

/-- Model of `s.endswith(suffix)`. -/
def pyEndsWith (s suffix : String) : Bool :=
  suffix.data.isSuffixOf s.data

/-- Source lines 9-19: keep the entries whose lowercased name ends in
`".xml"`; with none, print a notice (modelled as the `Option String`
component) and return no payloads. -/
def extract_xml_from_zip (entries : List (String × Bytes)) :
    List Bytes × Option String :=
  let xml_files := entries.filter (fun e => pyEndsWith (pyLower e.1) ".xml")
  if xml_files.isEmpty then
    ([], some "No XML files found in the zip archive.")
  else
    (xml_files.map Prod.snd, none)

/-- Source lines 22-24: the whole decompressed stream as one payload. -/
def extract_xml_from_gz (payload : Bytes) : List Bytes :=
  [payload]

/-! ### Namespace-qualifying transform (for the namespace claims)

`qualifyElem p` is the document with every tag `t` replaced by `p ++ t`:
applying it with `p = "{uri}"` turns an unnamespaced document into the
same document under default namespace `uri`, exactly as `ElementTree`
would present the latter. -/

mutual
def qualifyElem (p : String) : XElem → XElem
  | .mk t tx cs => .mk (p ++ t) tx (qualifyForest p cs)
def qualifyForest (p : String) : XForest → XForest
  | .nil => .nil
  | .cons c cs => .cons (qualifyElem p c) (qualifyForest p cs)
end

/-- Substring test: `strContains hay needle = true` iff `needle` occurs
contiguously in `hay`. -/
def strContains (hay needle : String) : Bool :=
  decide (List.IsInfix needle.data hay.data)

/-! ### Sample data for concrete evaluations -/

def sampleRow (ip cnt disp dk sp : String) : XElem :=
  mkE "row" none
    [mkE "source_ip" (some ip) [], mkE "count" (some cnt) [],
     mkE "policy_evaluated" none
       [mkE "disposition" (some disp) [], mkE "dkim" (some dk) [],
        mkE "spf" (some sp) []]]

def sampleMeta : XElem :=
  mkE "report_metadata" none
    [mkE "org_name" (some "Org Inc") [],
     mkE "date_range" none
       [mkE "begin" (some "0") [], mkE "end" (some "86400") []]]

def samplePolicy : XElem :=
  mkE "policy_published" none
    [mkE "domain" (some "example.com") [], mkE "p" (some "none") [],
     mkE "sp" (some "reject") [], mkE "pct" (some "100") []]

/-- A record that classifies as Success, with count 2. -/
def sampleRecordPass : XElem :=
  mkE "record" none [sampleRow "1.2.3.4" "2" "none" "pass" "pass"]

/-- A record that classifies as Failure, with count 3. -/
def sampleRecordFail : XElem :=
  mkE "record" none [sampleRow "5.6.7.8" "3" "reject" "fail" "fail"]

/-- A record element whose `row` has no `count` child at all, so the
count lookup falls back to the default `""`. -/
def sampleRecordNoCount : XElem :=
  mkE "record" none
    [mkE "row" none
      [mkE "source_ip" (some "9.9.9.9") [],
       mkE "policy_evaluated" none
         [mkE "disposition" (some "none") [], mkE "dkim" (some "pass") [],
          mkE "spf" (some "pass") []]]]

/-- A well-formed report whose only record passes both mechanisms. -/
def sampleDocAllPass : XElem :=
  mkE "feedback" none [sampleMeta, samplePolicy, sampleRecordPass]

/-- A well-formed report containing a record with a missing count. -/
def sampleDocNoCount : XElem :=
  mkE "feedback" none [sampleMeta, samplePolicy, sampleRecordNoCount]

/-- A report with three `record` elements at different depths: one top
level, one nested inside a wrapper element, and one nested inside
another `record`. -/
def sampleDocNested : XElem :=
  mkE "feedback" none
    [sampleMeta, samplePolicy, sampleRecordPass,
     mkE "wrapper" none
       [mkE "record" none
         [sampleRow "7.7.7.7" "1" "quarantine" "pass" "fail",
          sampleRecordFail]]]

/-- Success-classified record data (SPF pass, DKIM pass, disposition none). -/
def wRecS : RecordData := ⟨"1.2.3.4", "2", "none", "pass", "pass", none, []⟩

/-- Warning-classified record data (SPF fail, DKIM pass, quarantine). -/
def wRecW : RecordData := ⟨"5.6.7.8", "3", "quarantine", "pass", "fail", none, []⟩

/-- Failure-classified record data (both fail, reject). -/
def wRecF : RecordData := ⟨"9.9.9.9", "4", "reject", "fail", "fail", none, []⟩

/-- Record data whose count text is empty (unparsable). -/
def wRecBad : RecordData := ⟨"8.8.8.8", "", "none", "pass", "pass", none, []⟩

/-- A `ReportData` holding the given records and empty metadata. -/
def wReport (rs : List RecordData) : ReportData :=
  ⟨"Org Inc", "0", "86400", "example.com", "none", "reject", "100", rs⟩

/-! ## Helper lemmas -/

theorem sumCounts_cons (r : RecordData) (rs : List RecordData) :
    sumCounts (r :: rs) =
      match pyInt r.count, sumCounts rs with
      | some n, some a => some (n + a)
      | _, _ => none := rfl

theorem sumCountsD_cons (r : RecordData) (rs : List RecordData) :
    sumCountsD (r :: rs) = (pyInt r.count).getD 0 + sumCountsD rs := rfl

/-- When every count parses, the sum succeeds and equals the total of
the parsed values. -/
theorem sumCounts_eq_sumCountsD :
    ∀ rs : List RecordData, (∀ r ∈ rs, (pyInt r.count).isSome = true) →
      sumCounts rs = some (sumCountsD rs) := by
  intro rs
  induction rs with
  | nil => intro _; rfl
  | cons a t ih =>
    intro h
    obtain ⟨n, hn⟩ := Option.isSome_iff_exists.mp (h a (List.mem_cons_self a t))
    have ht := ih (fun r hr => h r (List.mem_cons_of_mem a hr))
    rw [sumCounts_cons, hn, ht, sumCountsD_cons, hn]
    rfl

/-- One unparsable count poisons the whole sum (the `ValueError`). -/
theorem sumCounts_none_of_bad :
    ∀ (rs : List RecordData) (r : RecordData), r ∈ rs → pyInt r.count = none →
      sumCounts rs = none := by
  intro rs
  induction rs with
  | nil => intro r hr; cases hr
  | cons a t ih =>
    intro r hr hbad
    rcases List.mem_cons.mp hr with h | h
    · rw [sumCounts_cons, ← h, hbad]
    · rw [sumCounts_cons, ih r h hbad]
      cases pyInt a.count <;> rfl

/-- The three classification buckets carry the whole message total. -/
theorem sumCountsD_partition :
    ∀ rs : List RecordData,
      sumCountsD (rs.filter (fun r => decide (classify r = .failure))) +
      sumCountsD (rs.filter (fun r => decide (classify r = .warning))) +
      sumCountsD (rs.filter (fun r => decide (classify r = .success))) =
        sumCountsD rs := by
  intro rs
  induction rs with
  | nil => rfl
  | cons a t ih =>
    cases hc : classify a <;>
      simp [List.filter_cons, hc, sumCountsD_cons] <;> omega

/-- Each record lands in exactly one bucket, so bucket sizes add up. -/
theorem length_filter_partition :
    ∀ rs : List RecordData,
      (rs.filter (fun r => decide (classify r = .success))).length +
      (rs.filter (fun r => decide (classify r = .warning))).length +
      (rs.filter (fun r => decide (classify r = .failure))).length =
        rs.length := by
  intro rs
  induction rs with
  | nil => rfl
  | cons a t ih =>
    cases hc : classify a <;>
      simp [List.filter_cons, hc] <;> omega

/-- To exhibit a substring, give the surrounding context. -/
theorem strContains_intro (hay needle : String) (pre post : List Char)
    (h : pre ++ needle.data ++ post = hay.data) : strContains hay needle = true :=
  decide_eq_true ⟨pre, post, h⟩

/-! ## Claim theorems -/

/-- C2 (code_bug evidence): at the parse boundary, a malformed-XML
outcome (`ET.fromstring` raising `ParseError`, modelled as the `error`
case) is NOT replaced by a descriptive error string: `parse_dmarc_xml`
wraps the call in no `try`/`except`, so the fault propagates to the
caller unchanged.  Shown at the concrete message `expat` produces for
the input bytes `b"<unclosed"`, and for every parse error. -/
theorem dmarc_c2_error_propagates :
    parse_dmarc_from_bytes (Except.error "unclosed token: line 1, column 0") =
      Except.error "unclosed token: line 1, column 0" ∧
    ∀ e : String, parse_dmarc_from_bytes (Except.error e) = Except.error e :=
  ⟨rfl, fun _ => rfl⟩

/-- C3: classification follows the precedence table of source lines
112-125 — Success iff SPF = "pass", DKIM = "pass" and disposition in
{none, pass}; otherwise Warning iff one mechanism passed and disposition
in {none, pass, quarantine}; otherwise Failure — and the three concrete
table rows of the claim classify as stated. -/
theorem dmarc_c3_classifier_table :
    (∀ r : RecordData,
      (classify r = .success ↔
        (r.spf = "pass" ∧ r.dkim = "pass" ∧
          (r.disposition = "none" ∨ r.disposition = "pass"))) ∧
      (classify r = .warning ↔
        (¬(r.spf = "pass" ∧ r.dkim = "pass" ∧
            (r.disposition = "none" ∨ r.disposition = "pass")) ∧
         ((r.spf = "pass" ∨ r.dkim = "pass") ∧
           (r.disposition = "none" ∨ r.disposition = "pass" ∨
             r.disposition = "quarantine")))) ∧
      (classify r = .failure ↔
        (¬(r.spf = "pass" ∧ r.dkim = "pass" ∧
            (r.disposition = "none" ∨ r.disposition = "pass")) ∧
         ¬((r.spf = "pass" ∨ r.dkim = "pass") ∧
           (r.disposition = "none" ∨ r.disposition = "pass" ∨
             r.disposition = "quarantine"))))) ∧
    classify ⟨"ip", "1", "none", "pass", "pass", none, []⟩ = .success ∧
    classify ⟨"ip", "1", "quarantine", "pass", "fail", none, []⟩ = .warning ∧
    classify ⟨"ip", "1", "reject", "fail", "fail", none, []⟩ = .failure := by
  refine ⟨fun r => ?_, by decide, by decide, by decide⟩
  refine ⟨?_, ?_, ?_⟩ <;> (unfold classify; split_ifs with h1 h2 <;> simp_all)

/-- C6: timestamp conversion is total by construction; a numeric string
whose value is in `datetime`'s range renders as
`"YYYY-MM-DD HH:MM:SS UTC"` (in particular `"0"` gives the epoch), and
any conversion failure — non-numeric text or an out-of-range value —
returns the raw input unchanged. -/
theorem dmarc_c6_timestamp :
    parse_unix_timestamp "0" = "1970-01-01 00:00:00 UTC" ∧
    (∀ s : String, pyInt s = none → parse_unix_timestamp s = s) ∧
    (∀ (s : String) (n : Int), pyInt s = some n →
      ¬(tsMin ≤ n ∧ n ≤ tsMax) → parse_unix_timestamp s = s) ∧
    (∀ (s : String) (n : Int), pyInt s = some n →
      tsMin ≤ n → n ≤ tsMax → parse_unix_timestamp s = formatUtc n) := by
  refine ⟨by decide, fun s h => ?_, fun s n h hr => ?_, fun s n h h1 h2 => ?_⟩
  · simp [parse_unix_timestamp, h]
  · simp only [parse_unix_timestamp, h]
    rw [if_neg hr]
  · simp only [parse_unix_timestamp, h]
    rw [if_pos ⟨h1, h2⟩]

/-- C6 witness: a non-numeric string and an out-of-range epoch value
both come back unchanged, by the theorem itself. -/
theorem dmarc_c6_timestamp_witness :
    parse_unix_timestamp "abc" = "abc" ∧
    parse_unix_timestamp "999999999999999" = "999999999999999" :=
  ⟨dmarc_c6_timestamp.2.1 "abc" (by decide),
   dmarc_c6_timestamp.2.2.1 "999999999999999" 999999999999999 (by decide)
     (by decide)⟩

/-- C7: a `.gz` input yields exactly one payload; a `.zip` input yields
exactly the payloads of its entries whose lowercased name ends in
`".xml"` (hence one per such entry, in order); and a `.zip` with no such
entry yields no payloads together with the diagnostic notice. -/
theorem dmarc_c7_extraction :
    (∀ payload : Bytes, (extract_xml_from_gz payload).length = 1) ∧
    (∀ entries : List (String × Bytes),
      (extract_xml_from_zip entries).1 =
        (entries.filter (fun e => pyEndsWith (pyLower e.1) ".xml")).map
          Prod.snd) ∧
    (∀ entries : List (String × Bytes),
      (extract_xml_from_zip entries).1.length =
        (entries.filter (fun e => pyEndsWith (pyLower e.1) ".xml")).length) ∧
    (∀ entries : List (String × Bytes),
      entries.filter (fun e => pyEndsWith (pyLower e.1) ".xml") = [] →
        extract_xml_from_zip entries =
          ([], some "No XML files found in the zip archive.")) := by
  have key : ∀ entries : List (String × Bytes),
      (extract_xml_from_zip entries).1 =
        (entries.filter (fun e => pyEndsWith (pyLower e.1) ".xml")).map
          Prod.snd := by
    intro entries
    simp only [extract_xml_from_zip]
    split_ifs with h
    · rw [List.isEmpty_iff.mp h]
      rfl
    · rfl
  refine ⟨fun _ => rfl, key, fun entries => ?_, fun entries h => ?_⟩
  · rw [key entries, List.length_map]
  · simp [extract_xml_from_zip, h]

/-- C7 witness: concrete archives — a zip with a (case-insensitively)
matching entry and a non-matching one, a zip with none, and a gz. -/
theorem dmarc_c7_extraction_witness :
    extract_xml_from_zip [("a.txt", [0])] =
      ([], some "No XML files found in the zip archive.") ∧
    (extract_xml_from_zip [("report.XML", [1]), ("notes.txt", [2])]).1 =
      [[1]] ∧
    (extract_xml_from_gz [7]).length = 1 := by
  refine ⟨dmarc_c7_extraction.2.2.2 [("a.txt", [0])] (by decide), ?_, ?_⟩
  · rw [dmarc_c7_extraction.2.1 [("report.XML", [1]), ("notes.txt", [2])]]
    decide
  · exact dmarc_c7_extraction.1 [7]

/-- C1 counterexample: a well-formed report whose only record has no
`count` element.  The count lookup defaults to `""`, and the aggregation
at source line 107 evaluates `int("")`, which raises `ValueError`
(modelled by the `none` result): the parse crashes instead of treating
the missing count as 0 and producing a summary. -/
theorem dmarc_c1_counterexample :
    (extractReportData sampleDocNoCount).records.map (fun r => r.count) =
      [""] ∧
    parse_dmarc_xml sampleDocNoCount = none := by
  exact ⟨by decide, by decide⟩

/-- C1 amended: the aggregation does not default unparsable counts to 0
— the empty count text does not parse, any record with an unparsable
count makes the whole computation raise (result `none`), and only when
every count parses does the total succeed, summing the parsed values. -/
theorem dmarc_c1_count_crash :
    pyInt "" = none ∧
    (∀ (rd : ReportData) (r : RecordData), r ∈ rd.records →
      pyInt r.count = none → renderReport rd = none) ∧
    (∀ rd : ReportData, (∀ r ∈ rd.records, (pyInt r.count).isSome = true) →
      sumCounts rd.records = some (sumCountsD rd.records)) := by
  refine ⟨by decide, fun rd r hr hbad => ?_, fun rd h => sumCounts_eq_sumCountsD _ h⟩
  simp only [renderReport, sumCounts_none_of_bad rd.records r hr hbad]

/-- C1 amended witness: a concrete report whose record has the empty
count text crashes the renderer. -/
theorem dmarc_c1_count_crash_witness :
    renderReport (wReport [wRecBad]) = none :=
  dmarc_c1_count_crash.2.1 (wReport [wRecBad]) wRecBad (by decide) (by decide)

/-- C4: classification is exhaustive and exclusive — every record falls
in exactly one of the three buckets, bucket sizes add up to the record
count, and (whenever the aggregation succeeds at all, i.e. every count
parses) the failed, warning and success totals sum to the grand total. -/
theorem dmarc_c4_partition (records : List RecordData)
    (h : ∀ r ∈ records, (pyInt r.count).isSome = true) :
    (∀ r ∈ records,
      (classify r = .success ∨ classify r = .warning ∨ classify r = .failure) ∧
      ¬(classify r = .success ∧ classify r = .warning) ∧
      ¬(classify r = .success ∧ classify r = .failure) ∧
      ¬(classify r = .warning ∧ classify r = .failure)) ∧
    (records.filter (fun r => decide (classify r = .success))).length +
      (records.filter (fun r => decide (classify r = .warning))).length +
      (records.filter (fun r => decide (classify r = .failure))).length =
        records.length ∧
    ∃ sF sW sS sT : Int,
      sumCounts (records.filter (fun r => decide (classify r = .failure))) =
        some sF ∧
      sumCounts (records.filter (fun r => decide (classify r = .warning))) =
        some sW ∧
      sumCounts (records.filter (fun r => decide (classify r = .success))) =
        some sS ∧
      sumCounts records = some sT ∧
      sF + sW + sS = sT := by
  refine ⟨fun r _ => ?_, length_filter_partition records,
    sumCountsD (records.filter (fun r => decide (classify r = .failure))),
    sumCountsD (records.filter (fun r => decide (classify r = .warning))),
    sumCountsD (records.filter (fun r => decide (classify r = .success))),
    sumCountsD records,
    sumCounts_eq_sumCountsD _
      (fun r hr => h r (List.mem_of_mem_filter hr)),
    sumCounts_eq_sumCountsD _
      (fun r hr => h r (List.mem_of_mem_filter hr)),
    sumCounts_eq_sumCountsD _
      (fun r hr => h r (List.mem_of_mem_filter hr)),
    sumCounts_eq_sumCountsD records h,
    sumCountsD_partition records⟩
  cases hc : classify r <;> simp [hc]

/-- C4 witness: the partition sum identity at a concrete three-record
report with one record in each bucket. -/
theorem dmarc_c4_partition_witness :
    ∃ sF sW sS sT : Int,
      sumCounts ([wRecS, wRecW, wRecF].filter
        (fun r => decide (classify r = .failure))) = some sF ∧
      sumCounts ([wRecS, wRecW, wRecF].filter
        (fun r => decide (classify r = .warning))) = some sW ∧
      sumCounts ([wRecS, wRecW, wRecF].filter
        (fun r => decide (classify r = .success))) = some sS ∧
      sumCounts [wRecS, wRecW, wRecF] = some sT ∧
      sF + sW + sS = sT :=
  (dmarc_c4_partition [wRecS, wRecW, wRecF] (by decide)).2.2

/-- C5: for a document whose root is not itself tagged `record` (a DMARC
report's root is `feedback`), the parsed record entries are exactly the
`record`-tagged elements found anywhere in the document, in document
(preorder) order, each mapped through the field extraction — so N
`record` elements yield exactly N entries in document order. -/
theorem dmarc_c5_records (root : XElem)
    (h : root.tag ≠ nsOf root ++ "record") :
    (extractReportData root).records =
      ((root :: descElem root).filter
        (fun e => decide (e.tag = nsOf root ++ "record"))).map
        (extractRecord (nsOf root)) ∧
    (extractReportData root).records.length =
      ((root :: descElem root).filter
        (fun e => decide (e.tag = nsOf root ++ "record"))).length := by
  have hroot : (fun e : XElem => decide (e.tag = nsOf root ++ "record")) root =
      false := decide_eq_false h
  have hfilter : (root :: descElem root).filter
      (fun e => decide (e.tag = nsOf root ++ "record")) =
      (descElem root).filter
        (fun e => decide (e.tag = nsOf root ++ "record")) := by
    simp [List.filter_cons, hroot]
  have hmain : (extractReportData root).records =
      ((descElem root).filter
        (fun e => decide (e.tag = nsOf root ++ "record"))).map
        (extractRecord (nsOf root)) := rfl
  refine ⟨by rw [hmain, hfilter], ?_⟩
  rw [hmain, hfilter, List.length_map]

/-- C5 witness: the nested sample document has three `record` elements
at three different depths and parse yields exactly those three entries
in document order. -/
theorem dmarc_c5_records_witness :
    (extractReportData sampleDocNested).records.length = 3 ∧
    (extractReportData sampleDocNested).records =
      ((sampleDocNested :: descElem sampleDocNested).filter
        (fun e => decide (e.tag = nsOf sampleDocNested ++ "record"))).map
        (extractRecord (nsOf sampleDocNested)) := by
  have h := dmarc_c5_records sampleDocNested (by decide)
  exact ⟨by rw [h.2]; decide, h.1⟩

theorem sumCounts_nil : sumCounts [] = some 0 := rfl

theorem allClearLine_data (d o : String) (t : Int) :
    (allClearLine d o t).data =
      "✅ ".data ++ d.data ++ " (".data ++ o.data ++ "): All ".data ++
        (toString t).data ++ " messages passed authentication".data := by
  simp [allClearLine, String.data_append, List.append_assoc]

theorem failedPart_data (n : Int) :
    (failedPart n).data = '🚨' :: ' ' :: ((toString n).data ++ " FAILED".data) := by
  have h1 : ("🚨 " : String).data = ['🚨', ' '] := rfl
  simp [failedPart, String.data_append, h1]

theorem warningPart_data (n : Int) :
    (warningPart n).data =
      '⚠' :: '️' :: ' ' :: ((toString n).data ++ " WARNINGS".data) := by
  have h1 : ("⚠️ " : String).data = ['⚠', '️', ' '] := rfl
  simp [warningPart, String.data_append, h1]

theorem successPart_data (n : Int) :
    (successPart n).data = '✅' :: ' ' :: ((toString n).data ++ " SUCCESS".data) := by
  have h1 : ("✅ " : String).data = ['✅', ' '] := rfl
  simp [successPart, String.data_append, h1]

theorem failedPart_ne_warningPart (a b : Int) : failedPart a ≠ warningPart b := by
  intro h
  have hd := congrArg String.data h
  rw [failedPart_data, warningPart_data] at hd
  injection hd with h1 _
  exact absurd h1 (by decide)

theorem failedPart_ne_successPart (a b : Int) : failedPart a ≠ successPart b := by
  intro h
  have hd := congrArg String.data h
  rw [failedPart_data, successPart_data] at hd
  injection hd with h1 _
  exact absurd h1 (by decide)

theorem warningPart_ne_failedPart (a b : Int) : warningPart a ≠ failedPart b := by
  intro h
  exact failedPart_ne_warningPart b a h.symm

theorem warningPart_ne_successPart (a b : Int) : warningPart a ≠ successPart b := by
  intro h
  have hd := congrArg String.data h
  rw [warningPart_data, successPart_data] at hd
  injection hd with h1 _
  exact absurd h1 (by decide)

theorem successPart_ne_failedPart (a b : Int) : successPart a ≠ failedPart b := by
  intro h
  exact failedPart_ne_successPart b a h.symm

theorem successPart_ne_warningPart (a b : Int) : successPart a ≠ warningPart b := by
  intro h
  exact warningPart_ne_successPart b a h.symm

/-- C8: with no Failure and no Warning records (and every count
parsing, without which the code crashes before producing anything), the
renderer returns the single all-clear line instead of the multi-line
digest, and that line names the policy domain, the organisation and the
total message count. -/
theorem dmarc_c8_all_clear (rd : ReportData)
    (hc : ∀ r ∈ rd.records, (pyInt r.count).isSome = true)
    (hf : rd.records.filter (fun r => decide (classify r = .failure)) = [])
    (hw : rd.records.filter (fun r => decide (classify r = .warning)) = []) :
    renderReport rd =
      some (allClearLine rd.domain rd.org_name (sumCountsD rd.records)) ∧
    strContains (allClearLine rd.domain rd.org_name (sumCountsD rd.records))
      rd.domain = true ∧
    strContains (allClearLine rd.domain rd.org_name (sumCountsD rd.records))
      rd.org_name = true ∧
    strContains (allClearLine rd.domain rd.org_name (sumCountsD rd.records))
      (toString (sumCountsD rd.records)) = true := by
  have hsum := sumCounts_eq_sumCountsD rd.records hc
  have hsucc := sumCounts_eq_sumCountsD
    (rd.records.filter (fun r => decide (classify r = .success)))
    (fun r hr => hc r (List.mem_of_mem_filter hr))
  refine ⟨?_, ?_, ?_, ?_⟩
  · simp only [renderReport, hsum, hf, hw, hsucc, sumCounts_nil,
      List.isEmpty_nil, and_self, if_true]
  · exact strContains_intro _ _ "✅ ".data
      (" (".data ++ rd.org_name.data ++ "): All ".data ++
        (toString (sumCountsD rd.records)).data ++
        " messages passed authentication".data)
      (by rw [allClearLine_data]; simp [List.append_assoc])
  · exact strContains_intro _ _
      ("✅ ".data ++ rd.domain.data ++ " (".data)
      ("): All ".data ++ (toString (sumCountsD rd.records)).data ++
        " messages passed authentication".data)
      (by rw [allClearLine_data]; simp [List.append_assoc])
  · exact strContains_intro _ _
      ("✅ ".data ++ rd.domain.data ++ " (".data ++ rd.org_name.data ++
        "): All ".data)
      (" messages passed authentication".data)
      (by rw [allClearLine_data]; try simp [List.append_assoc])

/-- C8 witness: the all-pass sample report renders as the concrete
all-clear line. -/
theorem dmarc_c8_all_clear_witness :
    renderReport (extractReportData sampleDocAllPass) =
      some "✅ example.com (Org Inc): All 2 messages passed authentication" := by
  have h := (dmarc_c8_all_clear (extractReportData sampleDocAllPass)
    (by decide) (by decide) (by decide)).1
  rw [h]
  decide

/-- C10: a segment of the digest summary line is present iff its
aggregated count is strictly positive — the FAILED, WARNINGS and
SUCCESS parts each appear in `summary_parts` exactly when their count
exceeds zero — while the grand-total text is always part of the line. -/
theorem dmarc_c10_summary_segments (fc wc sc total : Int) :
    (failedPart fc ∈ summaryParts fc wc sc ↔ 0 < fc) ∧
    (warningPart wc ∈ summaryParts fc wc sc ↔ 0 < wc) ∧
    (successPart sc ∈ summaryParts fc wc sc ↔ 0 < sc) ∧
    summaryLine fc wc sc total =
      "SUMMARY: " ++ String.intercalate " | " (summaryParts fc wc sc) ++
        " | Total: " ++ toString total ++ " messages" ∧
    strContains (summaryLine fc wc sc total) "Total:" = true := by
  have hsplit : (" | Total: " : String).data =
      " | ".data ++ ("Total:".data ++ " ".data) := by decide
  refine ⟨⟨fun hmem => ?_, fun h => by simp [summaryParts, h]⟩,
    ⟨fun hmem => ?_, fun h => by simp [summaryParts, h]⟩,
    ⟨fun hmem => ?_, fun h => by simp [summaryParts, h]⟩, rfl, ?_⟩
  · by_contra hneg
    by_cases hw : 0 < wc <;> by_cases hs : 0 < sc <;>
      simp [summaryParts, hneg, hw, hs, failedPart_ne_warningPart,
        failedPart_ne_successPart] at hmem
  · by_contra hneg
    by_cases hf : 0 < fc <;> by_cases hs : 0 < sc <;>
      simp [summaryParts, hneg, hf, hs, warningPart_ne_failedPart,
        warningPart_ne_successPart] at hmem
  · by_contra hneg
    by_cases hf : 0 < fc <;> by_cases hw : 0 < wc <;>
      simp [summaryParts, hneg, hf, hw, successPart_ne_failedPart,
        successPart_ne_warningPart] at hmem
  · refine strContains_intro _ _
      ("SUMMARY: ".data ++
        (String.intercalate " | " (summaryParts fc wc sc)).data ++ " | ".data)
      (" ".data ++ (toString total).data ++ " messages".data) ?_
    simp [summaryLine, String.data_append, hsplit, List.append_assoc]

/-! ### Lemmas about the namespace-qualifying transform -/

theorem qualifyElem_tag (p : String) (e : XElem) :
    (qualifyElem p e).tag = p ++ e.tag := by
  cases e
  rfl

theorem qualifyElem_text (p : String) (e : XElem) :
    (qualifyElem p e).text = e.text := by
  cases e
  rfl

theorem qualifyElem_children (p : String) (e : XElem) :
    (qualifyElem p e).children = qualifyForest p e.children := by
  cases e
  rfl

theorem toList_qualifyForest (p : String) :
    ∀ cs : XForest, (qualifyForest p cs).toList = cs.toList.map (qualifyElem p)
  | .nil => rfl
  | .cons c t => by
    simp [qualifyForest, XForest.toList, toList_qualifyForest p t]

mutual
theorem descElem_qualify (p : String) :
    ∀ e : XElem, descElem (qualifyElem p e) = (descElem e).map (qualifyElem p)
  | .mk t tx cs => by
    simp only [qualifyElem, descElem]
    exact descForest_qualify p cs
theorem descForest_qualify (p : String) :
    ∀ cs : XForest,
      descForest (qualifyForest p cs) = (descForest cs).map (qualifyElem p)
  | .nil => rfl
  | .cons c t => by
    simp [qualifyForest, descForest, descElem_qualify p c,
      descForest_qualify p t]
end

theorem string_append_right_inj (p a b : String) : p ++ a = p ++ b ↔ a = b := by
  constructor
  · intro h
    have hd : (p ++ a).data = (p ++ b).data := by rw [h]
    rw [String.data_append, String.data_append] at hd
    exact String.ext (List.append_cancel_left hd)
  · intro h
    rw [h]

theorem string_nil_append (s : String) : "" ++ s = s := by
  apply String.ext
  rw [String.data_append]
  rfl

theorem string_append_nil (s : String) : s ++ "" = s := by
  apply String.ext
  rw [String.data_append]
  exact List.append_nil s.data

theorem filter_tag_qualify (p t : String) (l : List XElem) :
    (l.map (qualifyElem p)).filter (fun c => decide (c.tag = p ++ t)) =
      (l.filter (fun c => decide (c.tag = t))).map (qualifyElem p) := by
  rw [List.filter_map]
  congr 1
  apply List.filter_congr
  intro c _
  simp only [Function.comp_apply, qualifyElem_tag]
  exact decide_eq_decide.mpr (string_append_right_inj p c.tag t)

theorem childMatch_qualify (p t : String) (e : XElem) :
    childMatch (p ++ t) (qualifyElem p e) = (childMatch t e).map (qualifyElem p) := by
  unfold childMatch
  rw [qualifyElem_children, toList_qualifyForest, filter_tag_qualify]

theorem findAllDesc_qualify (p t : String) (e : XElem) :
    findAllDesc (qualifyElem p e) (p ++ t) =
      (findAllDesc e t).map (qualifyElem p) := by
  unfold findAllDesc
  rw [descElem_qualify, filter_tag_qualify]

theorem childChain_qualify (p : String) :
    ∀ (ts : List String) (e : XElem),
      childChain (ts.map (fun t => p ++ t)) (qualifyElem p e) =
        (childChain ts e).map (qualifyElem p)
  | [], _ => rfl
  | t :: ts, e => by
    simp only [List.map_cons, childChain, childMatch_qualify,
      List.flatMap_map]
    rw [List.map_flatMap]
    congr 1
    funext a
    exact childChain_qualify p ts a

theorem findPath_qualify (p t : String) (ts : List String) (e : XElem) :
    findPath (qualifyElem p e) (p ++ t) (ts.map (fun s => p ++ s)) =
      (findPath e t ts).map (qualifyElem p) := by
  unfold findPath
  rw [findAllDesc_qualify, List.flatMap_map, List.map_flatMap]
  congr 1
  funext a
  exact childChain_qualify p ts a

theorem findtext_qualify (p t : String) (ts : List String) (e : XElem) :
    findtext (qualifyElem p e) (p ++ t) (ts.map (fun s => p ++ s)) =
      findtext e t ts := by
  unfold findtext
  rw [findPath_qualify]
  cases findPath e t ts with
  | nil => rfl
  | cons x l => simp [qualifyElem_text]

theorem findFirst_qualify (p t : String) (e : XElem) :
    findFirst (qualifyElem p e) (p ++ t) = (findFirst e t).map (qualifyElem p) := by
  unfold findFirst
  rw [findAllDesc_qualify]
  cases findAllDesc e t <;> rfl

/-- `findtext_qualify` at a one-step path. -/
theorem findtext_qualify0 (p t : String) (e : XElem) :
    findtext (qualifyElem p e) (p ++ t) [] = findtext e t [] :=
  findtext_qualify p t [] e

/-- `findtext_qualify` at a two-step path. -/
theorem findtext_qualify1 (p t₁ t₂ : String) (e : XElem) :
    findtext (qualifyElem p e) (p ++ t₁) [p ++ t₂] = findtext e t₁ [t₂] :=
  findtext_qualify p t₁ [t₂] e

/-- `findtext_qualify` at a three-step path. -/
theorem findtext_qualify2 (p t₁ t₂ t₃ : String) (e : XElem) :
    findtext (qualifyElem p e) (p ++ t₁) [p ++ t₂, p ++ t₃] =
      findtext e t₁ [t₂, t₃] :=
  findtext_qualify p t₁ [t₂, t₃] e

theorem extractRecord_qualify (p ns : String) (r : XElem) :
    extractRecord (p ++ ns) (qualifyElem p r) = extractRecord ns r := by
  unfold extractRecord
  simp only [String.append_assoc, findtext_qualify1, findtext_qualify2,
    findFirst_qualify]
  cases h1 : findFirst r (ns ++ "auth_results") with
  | none => simp
  | some ar =>
    cases h2 : findFirst ar (ns ++ "spf") with
    | none =>
      simp [h2, findFirst_qualify, findtext_qualify0, findAllDesc_qualify,
        List.map_map]
    | some spfA =>
      simp [h2, findFirst_qualify, findtext_qualify0, findAllDesc_qualify,
        List.map_map]

theorem takeWhile_all_stop {α : Type} (q : α → Bool) :
    ∀ (l : List α) (b : α) (r : List α), (∀ a ∈ l, q a = true) → q b = false →
      (l ++ b :: r).takeWhile q = l
  | [], b, r, _, hb => by simp [List.takeWhile_cons, hb]
  | a :: l, b, r, h, hb => by
    have ha := h a (List.mem_cons_self a l)
    simp only [List.cons_append, List.takeWhile_cons, ha, ite_true]
    rw [takeWhile_all_stop q l b r (fun x hx => h x (List.mem_cons_of_mem a hx)) hb]

theorem qualified_tag_data (u s : String) :
    ("\x7b" ++ u ++ "\x7d" ++ s).data = '{' :: (u.data ++ '}' :: s.data) := by
  simp [String.data_append]

/-- The namespace detection of lines 41-43 recovers exactly the
`"{uri}"` prefix from a qualified root tag (for a real URI, one without
`"}"` in it). -/
theorem nsOf_qualify (u : String) (doc : XElem) (hu : '}' ∉ u.data) :
    nsOf (qualifyElem ("\x7b" ++ u ++ "\x7d") doc) = "\x7b" ++ u ++ "\x7d" := by
  have htag : (qualifyElem ("\x7b" ++ u ++ "\x7d") doc).tag =
      "\x7b" ++ u ++ "\x7d" ++ doc.tag := qualifyElem_tag _ doc
  have hs : startsWithBrace ("\x7b" ++ u ++ "\x7d" ++ doc.tag) = true := by
    unfold startsWithBrace
    rw [qualified_tag_data]
    rfl
  have hsplit : pySplitHead ("\x7b" ++ u ++ "\x7d" ++ doc.tag) '}' = "\x7b" ++ u := by
    unfold pySplitHead
    apply String.ext
    rw [qualified_tag_data]
    have hq : ∀ a ∈ u.data, (fun a => decide (a ≠ '}')) a = true := by
      intro a ha
      simp only [decide_eq_true_eq]
      intro hcontra
      exact hu (hcontra ▸ ha)
    calc ('{' :: (u.data ++ '}' :: doc.tag.data)).takeWhile
          (fun a => decide (a ≠ '}'))
        = '{' :: ((u.data ++ '}' :: doc.tag.data).takeWhile
            (fun a => decide (a ≠ '}'))) := by
          simp [List.takeWhile_cons]
      _ = '{' :: u.data := by
          rw [takeWhile_all_stop _ u.data '}' doc.tag.data hq (by decide)]
      _ = ("\x7b" ++ u).data := by simp [String.data_append]
  unfold nsOf
  rw [htag, hs, if_pos rfl, hsplit]

/-- An unqualified root tag produces the empty namespace. -/
theorem nsOf_plain (doc : XElem) (h : startsWithBrace doc.tag = false) :
    nsOf doc = "" := by
  unfold nsOf
  rw [h]
  rfl

/-- The whole structured extraction is invariant under uniformly
qualifying every tag of an unnamespaced document with `"{uri}"`. -/
theorem extractReportData_qualify (u : String) (doc : XElem)
    (hu : '}' ∉ u.data) (hplain : startsWithBrace doc.tag = false) :
    extractReportData (qualifyElem ("\x7b" ++ u ++ "\x7d") doc) =
      extractReportData doc := by
  unfold extractReportData
  rw [nsOf_qualify u doc hu, nsOf_plain doc hplain]
  simp only [string_nil_append, findtext_qualify0, findtext_qualify1,
    findAllDesc_qualify, List.map_map]
  congr 1
  apply List.map_congr_left
  intro r _
  have h := extractRecord_qualify ("\x7b" ++ u ++ "\x7d") "" r
  rw [string_append_nil] at h
  simpa using h

/-- C9: when the root tag carries a default-namespace qualifier the
parser applies that `"{uri}"` prefix uniformly to every lookup, and when
it does not, plain tag names are used — concretely, the detected
namespace of a uniformly qualified document is exactly its `"{uri}"`
prefix, an unqualified document's namespace is `""`, and a document
parses to the same report data and the same output with or without a
default namespace. -/
theorem dmarc_c9_namespace (u : String) (doc : XElem) (hu : '}' ∉ u.data)
    (hplain : startsWithBrace doc.tag = false) :
    nsOf (qualifyElem ("\x7b" ++ u ++ "\x7d") doc) = "\x7b" ++ u ++ "\x7d" ∧
    nsOf doc = "" ∧
    extractReportData (qualifyElem ("\x7b" ++ u ++ "\x7d") doc) =
      extractReportData doc ∧
    parse_dmarc_xml (qualifyElem ("\x7b" ++ u ++ "\x7d") doc) = parse_dmarc_xml doc := by
  have h3 := extractReportData_qualify u doc hu hplain
  refine ⟨nsOf_qualify u doc hu, nsOf_plain doc hplain, h3, ?_⟩
  unfold parse_dmarc_xml
  rw [h3]

/-- C9 witness: the all-pass sample document, qualified with a concrete
DMARC namespace URI, parses identically to its unnamespaced form. -/
theorem dmarc_c9_namespace_witness :
    nsOf (qualifyElem ("\x7b" ++ "http://dmarc.org/dmarc-xml-0.1" ++ "\x7d")
      sampleDocAllPass) = "\x7bhttp://dmarc.org/dmarc-xml-0.1\x7d" ∧
    parse_dmarc_xml (qualifyElem ("\x7b" ++ "http://dmarc.org/dmarc-xml-0.1" ++ "\x7d")
      sampleDocAllPass) = parse_dmarc_xml sampleDocAllPass := by
  have h := dmarc_c9_namespace "http://dmarc.org/dmarc-xml-0.1"
    sampleDocAllPass (by decide) (by decide)
  exact ⟨by rw [h.1]; decide, h.2.2.2⟩

end DmarcChecker
